import Mathlib

/-!
Verification of the memory consolidation engine of the video-watcher
application (server/video-processor.mjs, MemoryManager class; the sibling
implementation in server/memory-manager.mjs agrees on every function modelled
here except where noted).

The JavaScript state is embedded shallowly:
  * JSON values become the inductive type `Json`;
  * `JSON.stringify` (compact form, as used for all size measurements) becomes
    `Json.stringify`;
  * the external Gemini summarizer is a parameter: each operation that calls
    `model.generateContent` and then extracts/parses JSON from the response
    takes an `Option Json` argument, `some j` meaning the call succeeded and
    the extracted text parsed to `j`, `none` meaning the call failed or the
    extracted text did not parse — the source handles those two identically
    at every call site except the working-memory trim, whose two catch
    blocks differ and which therefore takes the finer `TrimCallOutcome`;
  * operations additionally return a `Bool` recording whether the summarizer
    was invoked, so that no-summarizer-call properties are expressible.
-/

namespace MemoryMgr

/-- JSON value, the universe of the JavaScript data handled by the memory
manager: STM entry payloads, the LTM document and the WM board. -/
inductive Json where
  | null : Json
  | bool : Bool → Json
  | num : Int → Json
  | str : String → Json
  | arr : List Json → Json
  | obj : List (String × Json) → Json

/-- Lower-case hexadecimal digit, as produced by JSON.stringify for control
characters. -/
def hexDigit (n : Nat) : Char :=
  if n < 10 then Char.ofNat (48 + n) else Char.ofNat (87 + n)

/-- Escape of one character inside a JSON string literal, following
JSON.stringify. -/
def escapeChar (c : Char) : List Char :=
  if c = '"' then ['\\', '"']
  else if c = '\\' then ['\\', '\\']
  else if c = '\n' then ['\\', 'n']
  else if c = '\r' then ['\\', 'r']
  else if c = '\t' then ['\\', 't']
  else if c.toNat = 8 then ['\\', 'b']
  else if c.toNat = 12 then ['\\', 'f']
  else if c.toNat < 32 then ['\\', 'u', '0', '0', hexDigit (c.toNat / 16), hexDigit (c.toNat % 16)]
  else [c]

/-- JSON string literal for `s`, double quotes included. -/
def quoteString (s : String) : String :=
  "\"" ++ String.mk (s.toList.map escapeChar).flatten ++ "\""

mutual

/-- Compact serialization, modelling `JSON.stringify(v)` with no indent
argument — the form the source uses for every token-size measurement. -/
def Json.stringify : Json → String
  | .null => "null"
  | .bool true => "true"
  | .bool false => "false"
  | .num n => toString n
  | .str s => quoteString s
  | .arr xs => "[" ++ Json.stringifyList xs ++ "]"
  | .obj fs => "\x7b" ++ Json.stringifyObj fs ++ "\x7d"

/-- Comma-separated serialization of array elements. -/
def Json.stringifyList : List Json → String
  | [] => ""
  | [x] => Json.stringify x
  | x :: y :: xs => Json.stringify x ++ "," ++ Json.stringifyList (y :: xs)

/-- Comma-separated serialization of object fields. -/
def Json.stringifyObj : List (String × Json) → String
  | [] => ""
  | [(k, v)] => quoteString k ++ ":" ++ Json.stringify v
  | (k, v) :: f :: fs => quoteString k ++ ":" ++ Json.stringify v ++ "," ++ Json.stringifyObj (f :: fs)

end

/-- Token estimator of MemoryManager.estimateTokens: Math.ceil of length
over four. -/
def estimateTokens (text : String) : Nat :=
  (text.length + 3) / 4

/-- JavaScript truthiness of a JSON value (undefined is represented as a
missing `Option`, handled at use sites). -/
def jsTruthy : Json → Bool
  | .null => false
  | .bool b => b
  | .num n => n ≠ 0
  | .str s => s ≠ ""
  | .arr _ => true
  | .obj _ => true

/-- Truthiness of a possibly-absent value; `none` plays the role of
JavaScript undefined. -/
def jsTruthyOpt : Option Json → Bool
  | some v => jsTruthy v
  | none => false

/-- Property read on an object field list, modelling `o[k]` (first binding
wins; the objects built by the source never repeat a key). -/
def getFieldObj (fs : List (String × Json)) (k : String) : Option Json :=
  (fs.find? (fun p => p.1 = k)).map Prod.snd

/-- Property write on an object field list, modelling `o[k] = v`: replaces in
place when the key exists (JavaScript preserves key order), appends
otherwise. -/
def setFieldObj (fs : List (String × Json)) (k : String) (v : Json) : List (String × Json) :=
  if fs.any (fun p => p.1 = k) then
    fs.map (fun p => if p.1 = k then (k, v) else p)
  else
    fs ++ [(k, v)]

/-- Property read on an arbitrary JSON value, modelling `x[k]`: undefined
(`none`) on non-objects. -/
def Json.getProp : Json → String → Option Json
  | .obj fs, k => getFieldObj fs k
  | _, _ => none

/-- Top-level keys of a JSON object, in order; empty for non-objects. -/
def topKeys : Json → List String
  | .obj fs => fs.map Prod.fst
  | _ => []

/-- Short-term-memory entry, the object pushed by
MemoryManager.processNewAnalysis: a timestamp (ISO-8601 string), a type tag
and an arbitrary payload. -/
structure Entry where
  timestamp : String
  type : String
  data : Json

/-- JSON form of an STM entry, with the field order the source's object
literal uses. -/
def Entry.toJson (e : Entry) : Json :=
  .obj [("timestamp", .str e.timestamp), ("type", .str e.type), ("data", e.data)]

/-- Estimated token size of one STM entry, as computed inside the
consolidation loop: estimateTokens of JSON.stringify of the entry. -/
def entrySize (e : Entry) : Nat :=
  estimateTokens (Json.stringify e.toJson)

/-- Serialized size of the whole STM array, as measured by
MemoryManager.checkSTMSize. -/
def stmSize (stm : List Entry) : Nat :=
  estimateTokens (Json.stringify (.arr (stm.map Entry.toJson)))

/-- Comparison used by the consolidation sort. The source compares
new Date(a.timestamp) minus new Date(b.timestamp); for the ISO-8601 strings
the manager writes, date order coincides with string order, which is the
order modelled here. -/
def entryLE (a b : Entry) : Prop :=
  a.timestamp ≤ b.timestamp

instance : DecidableRel entryLE :=
  fun a b => inferInstanceAs (Decidable (a.timestamp ≤ b.timestamp))

instance : IsTotal Entry entryLE :=
  ⟨fun a b => le_total a.timestamp b.timestamp⟩

instance : IsTrans Entry entryLE :=
  ⟨fun _ _ _ h h' => le_trans h h'⟩

/-- The in-place sort at the top of MemoryManager.consolidateToLTM
(this.shortTermMemory.sort by timestamp): a stable sort, as ECMAScript
mandates for Array.prototype.sort. -/
def sortSTM (stm : List Entry) : List Entry :=
  List.insertionSort entryLE stm

/-- Slice-selection loop of MemoryManager.consolidateToLTM: starting from a
running total `tc`, keep taking entries while the total accumulated so far is
below 3000, adding each taken entry's size to the total after taking it. The
source starts the loop with `tc` equal to zero. -/
def selectOldestEntries : List Entry → Nat → List Entry
  | [], _ => []
  | e :: rest, tc =>
    if tc < 3000 then e :: selectOldestEntries rest (tc + entrySize e)
    else []

/-- Outcome of MemoryManager.createLTMSummary given the summarizer outcome:
a successfully parsed response is returned verbatim (the source performs no
shape validation on it); on a failed call or an unparsable response the
function returns the existing LTM, and the caller cannot distinguish this
from success. -/
def createLTMSummary (ltm : Json) (resp : Option Json) : Json :=
  match resp with
  | some updatedLTM => updatedLTM
  | none => ltm

/-- Priority list hard-coded in MemoryManager.trimLTM for the forced trim. -/
def priorityOrder : List String :=
  ["profile_summary",
   "skills_and_knowledge.confirmed_skills",
   "preferences_and_habits.ui_preferences",
   "preferences_and_habits.tool_preferences",
   "goals_and_motivations.stated_goals",
   "challenges.recurring_frustrations"]

/-- Splitter for the dot-separated priority paths, modelling the source's
String.prototype.split with separator dot; written by structural recursion on
the character list so that concrete applications reduce (String.splitOn in
the library is position-based well-founded recursion and does not). -/
def splitDotAux : List Char → List Char → List String
  | [], acc => [String.mk acc.reverse]
  | ch :: rest, acc =>
    if ch = '.' then String.mk acc.reverse :: splitDotAux rest []
    else splitDotAux rest (ch :: acc)

/-- Split a path on dots, as path.split of the source does. -/
def splitOnDot (s : String) : List String :=
  splitDotAux s.toList []

/-- One step of MemoryManager.forceTrimByPriority's forEach over the priority
paths. A one-part path copies the source field when it is truthy and not
already present (truthily) in the accumulator. A two-part path first creates
the parent object in the accumulator when absent or falsy, then copies the
leaf when both the source parent and the source leaf are truthy. The leaf
write assumes the accumulated parent is an object, which holds for every
path in priorityOrder. -/
def forceTrimStep (ltm : Json) (acc : List (String × Json)) (path : String) :
    List (String × Json) :=
  match splitOnDot path with
  | [k] =>
    match ltm.getProp k with
    | some v =>
      if jsTruthy v then
        if jsTruthyOpt (getFieldObj acc k) then acc else setFieldObj acc k v
      else acc
    | none => acc
  | [k1, k2] =>
    let acc1 := if jsTruthyOpt (getFieldObj acc k1) then acc else setFieldObj acc k1 (.obj [])
    match ltm.getProp k1 with
    | some v =>
      if jsTruthy v then
        match v.getProp k2 with
        | some w =>
          if jsTruthy w then
            match getFieldObj acc1 k1 with
            | some (.obj gs) => setFieldObj acc1 k1 (.obj (setFieldObj gs k2 w))
            | _ => acc1
          else acc1
        | none => acc1
      else acc1
    | none => acc1
  | _ => acc

/-- MemoryManager.forceTrimByPriority: build a fresh object holding only the
prioritized fields of `ltm`, in priority order. -/
def forceTrimByPriority (ltm : Json) (priority : List String) : Json :=
  .obj (priority.foldl (forceTrimStep ltm) [])

/-- JavaScript or-chain on a possibly-absent value: the value itself when
truthy, the fallback otherwise. -/
def jsOr (a : Option Json) (b : Json) : Json :=
  match a with
  | some v => if jsTruthy v then v else b
  | none => b

/-- Model of x?.slice(0, n) for the array values the fallback trim reads
(undefined propagates; a string would also slice; other types would throw,
which no state reachable in the claims produces). -/
def jsOptSlice (x : Option Json) (n : Nat) : Option Json :=
  match x with
  | some (.arr xs) => some (.arr (xs.take n))
  | some (.str s) => some (.str (String.mk (s.toList.take n)))
  | some v => some v
  | none => none

/-- MemoryManager.basicTrimLTM, the last-resort fallback: profile_summary or
a default, at most five confirmed skills, at most five UI preferences. -/
def basicTrimLTM (ltm : Json) : Json :=
  .obj
    [("profile_summary", jsOr (ltm.getProp "profile_summary") (.str "User profile")),
     ("skills_and_knowledge", .obj
       [("confirmed_skills",
         jsOr (jsOptSlice ((ltm.getProp "skills_and_knowledge").bind (Json.getProp · "confirmed_skills")) 5) (.arr []))]),
     ("preferences_and_habits", .obj
       [("ui_preferences",
         jsOr (jsOptSlice ((ltm.getProp "preferences_and_habits").bind (Json.getProp · "ui_preferences")) 5) (.arr []))])]

/-- MemoryManager.trimLTM given the summarizer outcome for the condensing
call. A parsed response within the 8000-token limit is accepted verbatim; a
parsed response still over the limit goes through forceTrimByPriority; a
failed call or unparsable response falls back to basicTrimLTM applied to the
pre-trim LTM (the source reaches basicTrimLTM from both its parse-error
handler and its outer error handler). -/
def trimLTM (ltm : Json) (resp : Option Json) : Json :=
  match resp with
  | some trimmedLTM =>
    if estimateTokens (Json.stringify trimmedLTM) ≤ 8000 then trimmedLTM
    else forceTrimByPriority trimmedLTM priorityOrder
  | none => basicTrimLTM ltm

/-- MemoryManager.checkLTMSize: trim only when the serialized LTM measures
strictly over the limit of 8000. The Bool records whether trimLTM (and with
it possibly the summarizer) was invoked. -/
def checkLTMSize (ltm : Json) (resp : Option Json) : Json × Bool :=
  if estimateTokens (Json.stringify ltm) > 8000 then (trimLTM ltm resp, true)
  else (ltm, false)

/-- MemoryManager.consolidateToLTM, the STM-to-LTM consolidation pass. The
source sorts STM in place, selects the oldest slice, returns early when the
slice is empty, and otherwise replaces LTM with createLTMSummary's result,
runs the LTM size check, and splices the selected entries off the front of
STM — unconditionally, because createLTMSummary swallows its own failures.
Arguments mergeResp and trimResp are the summarizer outcomes for the merge
call and for a possible trim call; the Bool records whether the merge
summarizer was invoked. -/
def consolidateToLTM (stm : List Entry) (ltm : Json)
    (mergeResp : Option Json) (trimResp : Option Json) :
    (List Entry × Json) × Bool :=
  let sorted := sortSTM stm
  let oldestEntries := selectOldestEntries sorted 0
  if oldestEntries.length = 0 then ((sorted, ltm), false)
  else
    let updatedLTM := createLTMSummary ltm mergeResp
    let finalLTM := (checkLTMSize updatedLTM trimResp).1
    ((sorted.drop oldestEntries.length, finalLTM), true)

/-- MemoryManager.checkSTMSize: consolidate only when the serialized STM
measures strictly over the limit of 8000. -/
def checkSTMSize (stm : List Entry) (ltm : Json)
    (mergeResp : Option Json) (trimResp : Option Json) :
    (List Entry × Json) × Bool :=
  if stmSize stm > 8000 then consolidateToLTM stm ltm mergeResp trimResp
  else ((stm, ltm), false)

/-- Model of x.length compared against n inside the condition
`x && x.length > n` of MemoryManager.trimWM: false when the field is absent
or has no length; the array and string cases carry a length. An empty string
is falsy, but its length also fails to exceed any n, so the single test is
faithful. -/
def jsLenGt (x : Option Json) (n : Nat) : Bool :=
  match x with
  | some (.arr xs) => xs.length > n
  | some (.str s) => s.length > n
  | _ => false

/-- Model of x.slice(0, n) for a value known to answer jsLenGt. -/
def jsSliceVal : Json → Nat → Json
  | .arr xs, n => .arr (xs.take n)
  | .str s, n => .str (String.mk (s.toList.take n))
  | v, _ => v

/-- Conditional cap of one working-memory field, as trimWM performs on the
spread copy of WM: slice to the first n elements only when the field exists
and its length exceeds n. Modelled for object states, the only working-memory
states the manager constructs. -/
def capField (wm : Json) (k : String) (n : Nat) : Json :=
  match wm with
  | .obj fs =>
    match getFieldObj fs k with
    | some v => if jsLenGt (some v) n then .obj (setFieldObj fs k (jsSliceVal v n)) else .obj fs
    | none => .obj fs
  | v => v

/-- Cheap local truncation at the top of MemoryManager.trimWM: cap
corroborated_hypotheses at 10 entries, then untested_hypotheses at 5,
leaving established_facts alone. -/
def localTrimWM (wm : Json) : Json :=
  capField (capField wm "corroborated_hypotheses" 10) "untested_hypotheses" 5

/-- Outcome of the one summarizer call inside MemoryManager.trimWM, the
single call site where the source distinguishes a failed call from an
unparsable response: the inner catch (parse failure) assigns the locally
truncated board, while the outer catch (the generateContent call threw)
assigns nothing, leaving the pre-trim WM in place. Every other call site
handles the two identically, so only this one needs the finer outcome. -/
inductive TrimCallOutcome where
  | failed : TrimCallOutcome
  | unparsable : TrimCallOutcome
  | parsed : Json → TrimCallOutcome

/-- MemoryManager.trimWM given the summarizer outcome for the condensing
call. When the local truncation measures within the 8000-token limit it is
kept and the summarizer is never invoked; otherwise one summarizer pass is
made: its parsed response is accepted verbatim (without re-measuring), a
parse failure keeps the locally-truncated board (inner catch), and a failed
call keeps the pre-trim board, since the outer catch assigns nothing. The
Bool records whether the summarizer was invoked. -/
def trimWM (wm : Json) (resp : TrimCallOutcome) : Json × Bool :=
  let trimmed := localTrimWM wm
  if estimateTokens (Json.stringify trimmed) ≤ 8000 then (trimmed, false)
  else
    match resp with
    | .parsed trimmedWM => (trimmedWM, true)
    | .unparsable => (trimmed, true)
    | .failed => (wm, true)

/-- MemoryManager.checkWMSize: trim only when the serialized WM measures
strictly over the limit of 8000. -/
def checkWMSize (wm : Json) (resp : TrimCallOutcome) : Json × Bool :=
  if estimateTokens (Json.stringify wm) > 8000 then trimWM wm resp
  else (wm, false)

/-- MemoryManager.updateWorkingMemory: the working-memory re-derivation. A
run with empty STM returns immediately without calling the summarizer.
Otherwise the parsed response — whatever its shape, the source validates
nothing beyond JSON.parse succeeding — replaces WM and is then size-checked;
a failed call or unparsable response keeps the prior WM. Argument resp is
the summarizer outcome of the re-derivation call, wmTrimResp the outcome of
a possible trim call; the Bool records whether the re-derivation summarizer
was invoked. -/
def updateWorkingMemory (stm : List Entry) (wm : Json)
    (resp : Option Json) (wmTrimResp : TrimCallOutcome) : Json × Bool :=
  if stm.length = 0 then (wm, false)
  else
    match resp with
    | some updatedWM => ((checkWMSize updatedWM wmTrimResp).1, true)
    | none => (wm, true)

/-- Analysis result consumed by MemoryManager.processNewAnalysis: five
optional loosely-typed fields, `none` standing for an absent property. -/
structure AnalysisResult where
  relevantContextSummary : Option Json
  summary : Option Json
  explicit_directives : Option Json
  explicit_statements : Option Json
  inferred_insights : Option Json

/-- Items iterated by the guarded loops of processNewAnalysis: the condition
`x && Array.isArray(x)` admits exactly array values, so an absent field or a
non-array value contributes nothing. -/
def jsArrayItems : Option Json → List Json
  | some (.arr xs) => xs
  | _ => []

/-- Payload of the context entry: the or-chain
relevantContextSummary or summary or the fixed fallback text. -/
def summaryValue (r : AnalysisResult) : Json :=
  jsOr r.relevantContextSummary (jsOr r.summary (.str "No summary available"))

/-- Context entry built first by processNewAnalysis. -/
def contextEntry (ts : String) (r : AnalysisResult) : Entry :=
  ⟨ts, "video_analysis_summary", .obj [("summary", summaryValue r)]⟩

/-- STM state after the append phase of MemoryManager.processNewAnalysis,
modelled as the source performs it: one push of the context entry, then one
loop of pushes per optional array, in source order. -/
def processNewAnalysis (stm : List Entry) (ts : String) (r : AnalysisResult) :
    List Entry :=
  let stm1 := stm ++ [contextEntry ts r]
  let stm2 := (jsArrayItems r.explicit_directives).foldl
    (fun acc d => acc ++ [⟨ts, "explicit_directive", d⟩]) stm1
  let stm3 := (jsArrayItems r.explicit_statements).foldl
    (fun acc s => acc ++ [⟨ts, "explicit_statement", s⟩]) stm2
  (jsArrayItems r.inferred_insights).foldl
    (fun acc i => acc ++ [⟨ts, "inferred_insight", i⟩]) stm3

/-- The three memory tiers held by the manager. -/
structure MemState where
  shortTermMemory : List Entry
  longTermMemory : Json
  workingMemory : Json

/-- Context object assembled by MemoryManager.conversationalMemoryQuery: the
last ten STM entries (slice(-10)), the full LTM and the full WM. -/
def queryContext (s : MemState) : Json :=
  .obj
    [("stm", .arr ((s.shortTermMemory.drop (s.shortTermMemory.length - 10)).map Entry.toJson)),
     ("ltm", s.longTermMemory),
     ("wm", s.workingMemory)]

/-- MemoryManager.conversationalMemoryQuery: build the memory-portal prompt
around the serialized context and the query (the fixed English instruction
text of the prompt is elided as an opaque surrounding constant), call the
summarizer on it, and return its text, or the fixed apology when the call
fails. The tiers are returned as they were. -/
def conversationalMemoryQuery (s : MemState) (query : String)
    (respond : String → Option String) : MemState × String :=
  let prompt := Json.stringify (queryContext s) ++ query
  match respond prompt with
  | some responseText => (s, responseText)
  | none => (s, "Sorry, I encountered an error accessing the memory system. Please try again.")

/-! Concrete fixtures used by counterexamples and witnesses. -/

/-- String of n letters a, for building values of a prescribed serialized
size. -/
def aStr (n : Nat) : String :=
  String.mk (List.replicate n 'a')

/-- Small sample STM entry. -/
def e0 : Entry :=
  ⟨"2024-05-01T10:00:00.000Z", "explicit_statement", .str "likes dark mode"⟩

/-- Small sample LTM document. -/
def ltm0 : Json :=
  .obj [("profile_summary", .str "p")]

/-- Working-memory board with the three arrays of the data model. -/
def wmBoard (u c e : List Json) : Json :=
  .obj [("untested_hypotheses", .arr u),
        ("corroborated_hypotheses", .arr c),
        ("established_facts", .arr e)]

/-- Empty working-memory board, the manager's initial WM. -/
def wm0 : Json :=
  wmBoard [] [] []

/-- Parseable summarizer response whose untested_hypotheses field is not an
array — the shape the spec's validation scenario rejects. -/
def badWM : Json :=
  .obj [("untested_hypotheses", .str "not an array"),
        ("corroborated_hypotheses", .arr []),
        ("established_facts", .arr [])]

/-- Parseable summarizer response that is nothing like an LTM document. -/
def badLTM : Json :=
  .obj [("foo", .num 1)]

/-- The seven top-level LTM section keys named by the data model. -/
def sevenSections : List String :=
  ["profile_summary", "skills_and_knowledge", "preferences_and_habits",
   "workflows", "challenges", "goals_and_motivations", "traits_and_attitudes"]

/-- Sample LTM document populated in every field the trim fallbacks read. -/
def ltm1 : Json :=
  .obj [("profile_summary", .str "dev"),
        ("skills_and_knowledge", .obj [("confirmed_skills", .arr [.str "js"])]),
        ("preferences_and_habits", .obj
          [("ui_preferences", .arr [.str "dark"]),
           ("tool_preferences", .arr [.str "vim"])]),
        ("goals_and_motivations", .obj [("stated_goals", .arr [.str "ship the app"])]),
        ("challenges", .obj [("recurring_frustrations", .arr [.str "lag"])])]

/-- Entry whose estimated size alone exceeds the 3000-token consolidation
slice (serialized length 12061, estimate 3016). -/
def bigEntry : Entry :=
  ⟨"2024", "x", .str (aStr 12020)⟩

/-- Parseable condensed-LTM response measuring over the 8000-token limit
(serialized length 32108, estimate 8027). -/
def bigLTM : Json :=
  .obj [("p", .str (aStr 32100))]

/-- One hypothesis of 6000 characters. -/
def bigHyp : Json :=
  .str (aStr 6000)

/-- Six untested hypotheses of 6000 characters each. -/
def u6 : List Json :=
  [bigHyp, bigHyp, bigHyp, bigHyp, bigHyp, bigHyp]

/-- Board over the 8000-token budget (estimate 9024) whose local truncation
to five untested hypotheses measures back under budget (estimate 7523). -/
def wm1 : Json :=
  wmBoard u6 [] []

/-- Board over budget (estimate 8270) whose bulk sits in established_facts,
so that the local truncation cannot shrink it. -/
def wmE : Json :=
  wmBoard [] [] [.str (aStr 33000)]

/-! Helper lemmas. -/

/-- Repeated push of mapped items, as the source's for-of loops perform,
equals appending the mapped list. -/
theorem foldl_push_eq (f : Json → Entry) :
    ∀ (l : List Json) (init : List Entry),
      l.foldl (fun acc d => acc ++ [f d]) init = init ++ l.map f
  | [], _ => by simp
  | x :: xs, init => by
    rw [List.foldl_cons, foldl_push_eq f xs (init ++ [f x])]
    simp

/-- The slice-selection loop returns a prefix of its input list. -/
theorem selectOldest_eq_take :
    ∀ (l : List Entry) (tc : Nat),
      selectOldestEntries l tc = l.take (selectOldestEntries l tc).length
  | [], _ => rfl
  | e :: rest, tc => by
    by_cases h : tc < 3000
    · unfold selectOldestEntries
      rw [if_pos h]
      simp only [List.length_cons, List.take_succ_cons]
      exact congrArg (e :: ·) (selectOldest_eq_take rest (tc + entrySize e))
    · unfold selectOldestEntries
      rw [if_neg h]
      rfl

/-- The slice selected from a nonempty list under the initial running total
of zero is nonempty: the loop guard 0 less than 3000 always passes. -/
theorem selectOldest_cons (e : Entry) (rest : List Entry) :
    selectOldestEntries (e :: rest) 0 = e :: selectOldestEntries rest (entrySize e) := by
  simp [selectOldestEntries]

/-- Sorting a nonempty STM yields a nonempty list. -/
theorem sortSTM_ne_nil {stm : List Entry} (h : stm ≠ []) : sortSTM stm ≠ [] := by
  intro hs
  apply h
  have hp := List.perm_insertionSort entryLE stm
  rw [show List.insertionSort entryLE stm = sortSTM stm from rfl, hs] at hp
  exact (List.Perm.nil_eq hp).symm

/-- Flattening replicated singleton lists. -/
theorem flatten_replicate_single (c : Char) :
    ∀ n : Nat, (List.replicate n [c]).flatten = List.replicate n c
  | 0 => rfl
  | n + 1 => by
    rw [List.replicate_succ, List.replicate_succ, List.flatten_cons,
      flatten_replicate_single c n]
    rfl

/-- Conversion of the fixture string back to its character list. -/
theorem aStr_toList (n : Nat) : (aStr n).toList = List.replicate n 'a' := rfl

/-- Length of a mk-built string. -/
theorem length_mk_list (cs : List Char) : (String.mk cs).length = cs.length := rfl

/-- Serialized length of the fixture string as a JSON literal: the letters
plus the two quotes. -/
theorem quoteString_aStr_length (n : Nat) : (quoteString (aStr n)).length = n + 2 := by
  have h2 : (String.mk (List.replicate n 'a')).length = n := by
    rw [length_mk_list, List.length_replicate]
  have h1 : ("\"" : String).length = 1 := rfl
  unfold quoteString
  rw [aStr_toList, List.map_replicate, show escapeChar 'a' = ['a'] from rfl,
    flatten_replicate_single]
  rw [String.length_append, String.length_append, h2, h1]
  omega

/-- Unfolding lemma for the token estimator, proved once over a variable so
that uses at large concrete arguments stay instantiation-only. -/
theorem estimateTokens_def (t : String) : estimateTokens t = (t.length + 3) / 4 := rfl

/-- Unfolding lemma for the entry size. -/
theorem entrySize_def (e : Entry) :
    entrySize e = estimateTokens (Json.stringify e.toJson) := rfl

/-- Size of the oversized entry: serialized length 12061, estimate 3016. -/
theorem bigEntry_size : entrySize bigEntry = 3016 := by
  have h : (Json.stringify bigEntry.toJson).length = 12061 := by
    simp only [bigEntry, Entry.toJson, Json.stringify, Json.stringifyObj,
      String.length_append, quoteString_aStr_length]
    decide
  rw [entrySize_def, estimateTokens_def, h]

/-- Size of the oversized condensed response: estimate 8027. -/
theorem bigLTM_size : estimateTokens (Json.stringify bigLTM) = 8027 := by
  have h : (Json.stringify bigLTM).length = 32108 := by
    simp only [bigLTM, Json.stringify, Json.stringifyObj,
      String.length_append, quoteString_aStr_length]
    decide
  rw [estimateTokens_def, h]

/-- Size of the oversized board wm1: estimate 9024. -/
theorem wm1_size : estimateTokens (Json.stringify wm1) = 9024 := by
  have h : (Json.stringify wm1).length = 36095 := by
    simp only [wm1, wmBoard, u6, bigHyp, Json.stringify, Json.stringifyList,
      Json.stringifyObj, String.length_append, quoteString_aStr_length]
    decide
  rw [estimateTokens_def, h]

/-- The local truncation caps wm1's untested hypotheses at five entries. -/
theorem localTrim_wm1 :
    localTrimWM wm1 = wmBoard [bigHyp, bigHyp, bigHyp, bigHyp, bigHyp] [] [] := by
  simp +decide [localTrimWM, capField, wm1, wmBoard, u6, getFieldObj, setFieldObj,
    jsLenGt, jsSliceVal]

/-- Size of wm1 after local truncation: estimate 7523, back under budget. -/
theorem wm1_trimmed_size :
    estimateTokens (Json.stringify (localTrimWM wm1)) = 7523 := by
  rw [localTrim_wm1]
  have h : (Json.stringify (wmBoard [bigHyp, bigHyp, bigHyp, bigHyp, bigHyp] [] [])).length = 30092 := by
    simp only [wmBoard, bigHyp, Json.stringify, Json.stringifyList,
      Json.stringifyObj, String.length_append, quoteString_aStr_length]
    decide
  rw [estimateTokens_def, h]

/-- Size of the board wmE: estimate 8270, over budget. -/
theorem wmE_size : estimateTokens (Json.stringify wmE) = 8270 := by
  have h : (Json.stringify wmE).length = 33080 := by
    simp only [wmE, wmBoard, Json.stringify, Json.stringifyList,
      Json.stringifyObj, String.length_append, quoteString_aStr_length]
    decide
  rw [estimateTokens_def, h]

/-- The local truncation leaves wmE unchanged: its two hypothesis lists are
already within their caps. -/
theorem localTrim_wmE : localTrimWM wmE = wmE := by
  simp +decide [localTrimWM, capField, wmE, wmBoard, getFieldObj, setFieldObj,
    jsLenGt, jsSliceVal]

/-- The LTM size check leaves an under-budget document alone and invokes
nothing. -/
theorem checkLTMSize_of_le (ltm : Json) (resp : Option Json)
    (h : estimateTokens (Json.stringify ltm) ≤ 8000) :
    checkLTMSize ltm resp = (ltm, false) := by
  unfold checkLTMSize
  rw [if_neg (by omega)]

/-- Analysis result with every optional field absent. -/
def rEmpty : AnalysisResult :=
  ⟨none, none, none, none, none⟩

/-- Analysis result carrying both summary fields, truthy. -/
def rBoth : AnalysisResult :=
  ⟨some (.str "ctx"), some (.str "sum"), none, none, none⟩

/-! Claims. -/

/-- C4: ingesting an analysis result appends exactly one
video_analysis_summary entry, then one entry per explicit directive, per
explicit statement and per inferred insight, in that order, to the end of
STM — absent (or non-array) fields contributing nothing — so the number of
appended observations is one plus the three array lengths. -/
theorem c4_ingest_appends_in_order (stm : List Entry) (ts : String) (r : AnalysisResult) :
    processNewAnalysis stm ts r =
      stm ++ contextEntry ts r ::
        ((jsArrayItems r.explicit_directives).map (fun d => Entry.mk ts "explicit_directive" d) ++
         (jsArrayItems r.explicit_statements).map (fun s => Entry.mk ts "explicit_statement" s) ++
         (jsArrayItems r.inferred_insights).map (fun i => Entry.mk ts "inferred_insight" i)) ∧
    (processNewAnalysis stm ts r).length =
      stm.length + (1 + (jsArrayItems r.explicit_directives).length +
        (jsArrayItems r.explicit_statements).length +
        (jsArrayItems r.inferred_insights).length) := by
  have h : processNewAnalysis stm ts r =
      stm ++ contextEntry ts r ::
        ((jsArrayItems r.explicit_directives).map (fun d => Entry.mk ts "explicit_directive" d) ++
         (jsArrayItems r.explicit_statements).map (fun s => Entry.mk ts "explicit_statement" s) ++
         (jsArrayItems r.inferred_insights).map (fun i => Entry.mk ts "inferred_insight" i)) := by
    unfold processNewAnalysis
    dsimp only
    rw [foldl_push_eq (fun d => Entry.mk ts "explicit_directive" d),
      foldl_push_eq (fun s => Entry.mk ts "explicit_statement" s),
      foldl_push_eq (fun i => Entry.mk ts "inferred_insight" i)]
    simp
  refine ⟨h, ?_⟩
  rw [h]
  simp [List.length_append]
  omega

/-- C8: the conversational memory query is read-only — whatever the
summarizer answers (or if it fails), the three memory tiers afterwards are
exactly the state passed in. -/
theorem c8_query_read_only (s : MemState) (q : String)
    (respond : String → Option String) :
    (conversationalMemoryQuery s q respond).1 = s := by
  unfold conversationalMemoryQuery
  dsimp only
  cases hr : respond (Json.stringify (queryContext s) ++ q) <;> simp [hr]

/-- C9: running the LTM size check on an LTM whose estimate is within the
8000-token budget changes nothing and makes no trim (hence no summarizer)
call. -/
theorem c9_ltm_check_under_budget_noop (ltm : Json) (resp : Option Json)
    (h : estimateTokens (Json.stringify ltm) ≤ 8000) :
    checkLTMSize ltm resp = (ltm, false) :=
  checkLTMSize_of_le ltm resp h

/-- Witness for C9 at the empty document. -/
theorem c9_witness :
    estimateTokens (Json.stringify (Json.obj [])) ≤ 8000 ∧
    checkLTMSize (Json.obj []) none = (Json.obj [], false) :=
  ⟨by decide, c9_ltm_check_under_budget_noop (Json.obj []) none (by decide)⟩

/-- C10: when both summary fields are absent or falsy the context entry's
payload is the fixed fallback text, and when both are present and truthy the
relevantContextSummary value wins. -/
theorem c10_summary_payload (ts : String) (r : AnalysisResult) :
    (jsTruthyOpt r.relevantContextSummary = false → jsTruthyOpt r.summary = false →
      (contextEntry ts r).data = .obj [("summary", .str "No summary available")]) ∧
    (∀ v w, r.relevantContextSummary = some v → jsTruthy v = true →
      r.summary = some w → jsTruthy w = true →
      (contextEntry ts r).data = .obj [("summary", v)]) := by
  constructor
  · intro h1 h2
    cases hr : r.relevantContextSummary with
    | none =>
      cases hs : r.summary with
      | none => simp [contextEntry, summaryValue, jsOr, hr, hs]
      | some w =>
        rw [hs] at h2
        simp [jsTruthyOpt] at h2
        simp [contextEntry, summaryValue, jsOr, hr, hs, h2]
    | some v =>
      rw [hr] at h1
      simp [jsTruthyOpt] at h1
      cases hs : r.summary with
      | none => simp [contextEntry, summaryValue, jsOr, hr, hs, h1]
      | some w =>
        rw [hs] at h2
        simp [jsTruthyOpt] at h2
        simp [contextEntry, summaryValue, jsOr, hr, hs, h1, h2]
  · intro v w hv htv _ _
    simp [contextEntry, summaryValue, jsOr, hv, htv]

/-- Witness for C10: absent fields yield the fallback payload, two truthy
fields yield the relevantContextSummary value. -/
theorem c10_witness :
    (contextEntry "t" rEmpty).data = .obj [("summary", .str "No summary available")] ∧
    (contextEntry "t" rBoth).data = .obj [("summary", .str "ctx")] :=
  ⟨(c10_summary_payload "t" rEmpty).1 rfl rfl,
   (c10_summary_payload "t" rBoth).2 (.str "ctx") (.str "sum") rfl (by decide) rfl (by decide)⟩

/-- C1 counterexample: a consolidation pass whose merge response is
unparsable (outcome none) leaves LTM as it was, yet still removes the
selected entry from STM — the single unmerged observation is gone, refuting
that STM is left untouched on failure. -/
theorem c1_counterexample :
    (consolidateToLTM [e0] ltm0 none none).1.2 = ltm0 ∧
    (consolidateToLTM [e0] ltm0 none none).1.1 = [] ∧
    (consolidateToLTM [e0] ltm0 none none).1.1 ≠ [e0] := by
  refine ⟨rfl, rfl, ?_⟩
  intro h
  exact absurd (congrArg List.length h) (by decide)

/-- C1 (amended): on a failed or unparsable merge response the pass keeps
the prior LTM (here stated for an LTM within budget, so the post-merge size
check is also a no-op), but still removes the selected slice from the front
of the sorted STM, because createLTMSummary swallows the failure. -/
theorem c1_failed_merge_keeps_ltm_but_splices_stm (stm : List Entry) (ltm : Json)
    (trimResp : Option Json) (hne : stm ≠ [])
    (hsz : estimateTokens (Json.stringify ltm) ≤ 8000) :
    consolidateToLTM stm ltm none trimResp =
      (((sortSTM stm).drop (selectOldestEntries (sortSTM stm) 0).length, ltm), true) := by
  obtain ⟨e, rest, hrw⟩ := List.exists_cons_of_ne_nil (sortSTM_ne_nil hne)
  have hsel : selectOldestEntries (sortSTM stm) 0 ≠ [] := by
    rw [hrw, selectOldest_cons]
    simp
  have hlen : ¬ (selectOldestEntries (sortSTM stm) 0).length = 0 := by
    simpa [List.length_eq_zero] using hsel
  unfold consolidateToLTM
  dsimp only
  rw [if_neg hlen, show createLTMSummary ltm none = ltm from rfl,
    checkLTMSize_of_le ltm trimResp hsz]

/-- Witness for C1 at a one-entry STM and a small LTM. -/
theorem c1_witness :
    ([e0] : List Entry) ≠ [] ∧
    estimateTokens (Json.stringify ltm0) ≤ 8000 ∧
    consolidateToLTM [e0] ltm0 none none = (([], ltm0), true) := by
  refine ⟨by simp, by decide, ?_⟩
  rw [c1_failed_merge_keeps_ltm_but_splices_stm [e0] ltm0 none (by simp) (by decide)]
  rfl

/-- C2 counterexample: for a working-memory re-derivation the summarizer
response whose untested_hypotheses is the string "not an array" parses, so
the code accepts it wholesale: WM afterwards equals that response and is not
the prior board, refuting the claimed shape validation. -/
theorem c2_counterexample :
    (updateWorkingMemory [e0] wm0 (some badWM) .failed).1 = badWM ∧
    (updateWorkingMemory [e0] wm0 (some badWM) .failed).1 ≠ wm0 := by
  refine ⟨rfl, ?_⟩
  intro h
  exact absurd (congrArg Json.stringify h) (by decide)

/-- C2 (amended): the re-derivation performs no shape validation — any
parsed response, whatever its form, replaces WM verbatim (and is then
size-checked); only a failed call or unparsable response keeps the prior WM
unchanged. -/
theorem c2_wm_rederivation_no_validation (stm : List Entry) (wm : Json)
    (trimResp : TrimCallOutcome) (hne : stm ≠ []) :
    (∀ j, updateWorkingMemory stm wm (some j) trimResp = ((checkWMSize j trimResp).1, true)) ∧
    updateWorkingMemory stm wm none trimResp = (wm, true) := by
  have hlen : ¬ stm.length = 0 := by
    simpa [List.length_eq_zero] using hne
  constructor
  · intro j
    unfold updateWorkingMemory
    rw [if_neg hlen]
  · unfold updateWorkingMemory
    rw [if_neg hlen]

/-- Witness for C2: an unparsable response keeps the empty board. -/
theorem c2_witness :
    ([e0] : List Entry) ≠ [] ∧
    updateWorkingMemory [e0] wm0 none .failed = (wm0, true) :=
  ⟨by simp, (c2_wm_rederivation_no_validation [e0] wm0 .failed (by simp)).2⟩

/-- C3 counterexample: a merge pass whose response parses to an object with
the single key foo succeeds and installs it as the LTM, whose top-level keys
are not the seven sections — profile_summary among others is missing. -/
theorem c3_counterexample :
    (consolidateToLTM [e0] ltm0 (some badLTM) none).2 = true ∧
    (consolidateToLTM [e0] ltm0 (some badLTM) none).1.2 = badLTM ∧
    topKeys badLTM ≠ sevenSections ∧
    "profile_summary" ∈ sevenSections ∧
    "profile_summary" ∉ topKeys badLTM :=
  ⟨rfl, rfl, by decide, by decide, by decide⟩

/-- C3 (amended): neither the merge nor the normal-path trim checks the
section keys — a successful merge installs the parsed response verbatim, and
a condensed trim response measuring within budget is likewise installed
verbatim, whatever their top-level keys. -/
theorem c3_no_shape_enforced (ltm j : Json)
    (h : estimateTokens (Json.stringify j) ≤ 8000) :
    createLTMSummary ltm (some j) = j ∧ trimLTM ltm (some j) = j := by
  refine ⟨rfl, ?_⟩
  unfold trimLTM
  dsimp only
  rw [if_pos h]

/-- Witness for C3 at the foo-object response. -/
theorem c3_witness :
    estimateTokens (Json.stringify badLTM) ≤ 8000 ∧
    createLTMSummary ltm0 (some badLTM) = badLTM ∧
    trimLTM ltm0 (some badLTM) = badLTM := by
  refine ⟨by decide, ?_, ?_⟩
  · exact (c3_no_shape_enforced ltm0 badLTM (by decide)).1
  · exact (c3_no_shape_enforced ltm0 badLTM (by decide)).2

/-- C5 counterexample: one entry whose individual size is 3016, over the
3000-token slice, is nevertheless selected — the slice drawn from a nonempty
STM is never empty — and the pass does call the merge summarizer, refuting
the claimed skip case for individually-oversized entries. -/
theorem c5_counterexample :
    3000 < entrySize bigEntry ∧
    selectOldestEntries [bigEntry] 0 = [bigEntry] ∧
    (consolidateToLTM [bigEntry] ltm0 (some badLTM) none).2 = true := by
  refine ⟨?_, rfl, rfl⟩
  rw [bigEntry_size]
  norm_num

/-- C5 (amended): every pass sorts STM ascending by timestamp (yielding a
permutation of the input), its slice is the greedily accumulated prefix of
the sorted list, the pass skips with no summarizer call exactly when STM is
empty — a nonempty STM always selects at least its first entry, even one
whose size alone exceeds the slice budget — and whatever the summarizer
outcome the pass removes exactly the selected prefix from the front of the
sorted STM. -/
theorem c5_consolidation_slice_structure (stm : List Entry) (ltm : Json)
    (r1 r2 : Option Json) :
    List.Sorted entryLE (sortSTM stm) ∧
    List.Perm (sortSTM stm) stm ∧
    (∃ rest, sortSTM stm = selectOldestEntries (sortSTM stm) 0 ++ rest) ∧
    (stm = [] → consolidateToLTM stm ltm r1 r2 = (([], ltm), false)) ∧
    (stm ≠ [] →
      selectOldestEntries (sortSTM stm) 0 ≠ [] ∧
      (consolidateToLTM stm ltm r1 r2).2 = true ∧
      (consolidateToLTM stm ltm r1 r2).1.1 =
        (sortSTM stm).drop (selectOldestEntries (sortSTM stm) 0).length) := by
  refine ⟨List.sorted_insertionSort entryLE stm, List.perm_insertionSort entryLE stm,
    ?_, ?_, ?_⟩
  · refine ⟨(sortSTM stm).drop (selectOldestEntries (sortSTM stm) 0).length, ?_⟩
    conv_lhs => rw [← List.take_append_drop
      (selectOldestEntries (sortSTM stm) 0).length (sortSTM stm)]
    rw [← selectOldest_eq_take]
  · intro h
    subst h
    rfl
  · intro hne
    obtain ⟨e, rest, hrw⟩ := List.exists_cons_of_ne_nil (sortSTM_ne_nil hne)
    have hsel : selectOldestEntries (sortSTM stm) 0 ≠ [] := by
      rw [hrw, selectOldest_cons]
      simp
    have hlen : ¬ (selectOldestEntries (sortSTM stm) 0).length = 0 := by
      simpa [List.length_eq_zero] using hsel
    refine ⟨hsel, ?_, ?_⟩
    · unfold consolidateToLTM
      dsimp only
      rw [if_neg hlen]
    · unfold consolidateToLTM
      dsimp only
      rw [if_neg hlen]

/-- Witness for C5: a singleton STM consolidates, an empty one skips. -/
theorem c5_witness :
    (consolidateToLTM [e0] ltm0 none none).2 = true ∧
    consolidateToLTM [] ltm0 none none = (([], ltm0), false) :=
  ⟨((c5_consolidation_slice_structure [e0] ltm0 none none).2.2.2.2 (by simp)).2.1,
   (c5_consolidation_slice_structure [] ltm0 none none).2.2.2.1 rfl⟩

/-- C6 counterexample: on the populated document ltm1 an unparsable
condensed response makes trimLTM fall back to basicTrimLTM, which has no
goals_and_motivations key at all — whereas the priority-projection the claim
promises keeps stated_goals — so the unparsable case does not use the
priority-projection. -/
theorem c6_counterexample :
    trimLTM ltm1 none = basicTrimLTM ltm1 ∧
    (trimLTM ltm1 none).getProp "goals_and_motivations" = none ∧
    (forceTrimByPriority ltm1 priorityOrder).getProp "goals_and_motivations" =
      some (.obj [("stated_goals", .arr [.str "ship the app"])]) :=
  ⟨rfl, rfl, by rfl⟩

/-- C6 (amended): a parsed condensed response still over the 8000-token
budget is replaced by the priority-projection of that response; an
unparsable response or failed call instead falls back to the minimal-safe
basicTrimLTM of the pre-trim LTM (profile summary, at most five confirmed
skills, at most five UI preferences). -/
theorem c6_trim_fallback_chain (ltm j : Json)
    (hover : 8000 < estimateTokens (Json.stringify j)) :
    trimLTM ltm (some j) = forceTrimByPriority j priorityOrder ∧
    trimLTM ltm none = basicTrimLTM ltm := by
  constructor
  · unfold trimLTM
    dsimp only
    rw [if_neg (by omega)]
  · rfl

/-- Witness for C6 at the oversized condensed response. -/
theorem c6_witness :
    8000 < estimateTokens (Json.stringify bigLTM) ∧
    trimLTM ltm1 (some bigLTM) = forceTrimByPriority bigLTM priorityOrder ∧
    trimLTM ltm1 none = basicTrimLTM ltm1 := by
  have h : 8000 < estimateTokens (Json.stringify bigLTM) := by
    rw [bigLTM_size]
    norm_num
  exact ⟨h, (c6_trim_fallback_chain ltm1 bigLTM h).1, (c6_trim_fallback_chain ltm1 bigLTM h).2⟩

/-- Capping the corroborated_hypotheses field of a board slices that array
to its first n entries (a no-op fold into take when already short). -/
theorem capBoard_c (u c e : List Json) (n : Nat) :
    capField (wmBoard u c e) "corroborated_hypotheses" n = wmBoard u (c.take n) e := by
  unfold wmBoard capField
  dsimp only
  rw [show getFieldObj
      [("untested_hypotheses", Json.arr u), ("corroborated_hypotheses", Json.arr c),
       ("established_facts", Json.arr e)] "corroborated_hypotheses" = some (Json.arr c) from rfl]
  dsimp only
  by_cases hc : n < c.length
  · rw [if_pos (by simp [jsLenGt]; omega)]
    rw [show setFieldObj
        [("untested_hypotheses", Json.arr u), ("corroborated_hypotheses", Json.arr c),
         ("established_facts", Json.arr e)] "corroborated_hypotheses"
        (jsSliceVal (Json.arr c) n) =
        [("untested_hypotheses", Json.arr u), ("corroborated_hypotheses", Json.arr (c.take n)),
         ("established_facts", Json.arr e)] from rfl]
  · rw [if_neg (by simp [jsLenGt]; omega), List.take_of_length_le (by omega)]

/-- Capping the untested_hypotheses field of a board slices that array to
its first n entries. -/
theorem capBoard_u (u c e : List Json) (n : Nat) :
    capField (wmBoard u c e) "untested_hypotheses" n = wmBoard (u.take n) c e := by
  unfold wmBoard capField
  dsimp only
  rw [show getFieldObj
      [("untested_hypotheses", Json.arr u), ("corroborated_hypotheses", Json.arr c),
       ("established_facts", Json.arr e)] "untested_hypotheses" = some (Json.arr u) from rfl]
  dsimp only
  by_cases hu : n < u.length
  · rw [if_pos (by simp [jsLenGt]; omega)]
    rw [show setFieldObj
        [("untested_hypotheses", Json.arr u), ("corroborated_hypotheses", Json.arr c),
         ("established_facts", Json.arr e)] "untested_hypotheses"
        (jsSliceVal (Json.arr u) n) =
        [("untested_hypotheses", Json.arr (u.take n)), ("corroborated_hypotheses", Json.arr c),
         ("established_facts", Json.arr e)] from rfl]
  · rw [if_neg (by simp [jsLenGt]; omega), List.take_of_length_le (by omega)]

/-- C7: an over-budget board is routed by the size check into trimWM, whose
first stage is the local truncation — untested capped at its first five
entries, corroborated at its first ten, established kept in full; when the
truncated board re-measures within the 8000-token budget the trim stops
there and the summarizer is never consulted; otherwise exactly one
summarizer pass runs, accepted verbatim on parse success and keeping the
locally-truncated board (not the pre-trim board) on parse failure — while a
failed call, caught by the outer handler, keeps the pre-trim board. -/
theorem c7_wm_trim_two_stage (u c e : List Json) (resp : TrimCallOutcome)
    (hover : 8000 < estimateTokens (Json.stringify (wmBoard u c e))) :
    checkWMSize (wmBoard u c e) resp = trimWM (wmBoard u c e) resp ∧
    localTrimWM (wmBoard u c e) = wmBoard (u.take 5) (c.take 10) e ∧
    (estimateTokens (Json.stringify (localTrimWM (wmBoard u c e))) ≤ 8000 →
      trimWM (wmBoard u c e) resp = (localTrimWM (wmBoard u c e), false)) ∧
    (8000 < estimateTokens (Json.stringify (localTrimWM (wmBoard u c e))) →
      trimWM (wmBoard u c e) .unparsable = (localTrimWM (wmBoard u c e), true) ∧
      trimWM (wmBoard u c e) .failed = (wmBoard u c e, true) ∧
      ∀ j, trimWM (wmBoard u c e) (.parsed j) = (j, true)) := by
  refine ⟨?_, ?_, ?_, ?_⟩
  · unfold checkWMSize
    rw [if_pos (by omega)]
  · unfold localTrimWM
    rw [capBoard_c, capBoard_u]
  · intro hle
    unfold trimWM
    dsimp only
    rw [if_pos hle]
  · intro hgt
    refine ⟨?_, ?_, ?_⟩
    · unfold trimWM
      dsimp only
      rw [if_neg (by omega)]
    · unfold trimWM
      dsimp only
      rw [if_neg (by omega)]
    · intro j
      unfold trimWM
      dsimp only
      rw [if_neg (by omega)]

/-- Witness for C7 at two concrete boards: one whose local truncation
suffices (no summarizer call), one where it does not (one summarizer pass:
parse failure keeps the truncated board, a failed call keeps the pre-trim
board, a parsed response is installed verbatim). -/
theorem c7_witness :
    8000 < estimateTokens (Json.stringify wm1) ∧
    estimateTokens (Json.stringify (localTrimWM wm1)) ≤ 8000 ∧
    trimWM wm1 .failed = (localTrimWM wm1, false) ∧
    8000 < estimateTokens (Json.stringify wmE) ∧
    8000 < estimateTokens (Json.stringify (localTrimWM wmE)) ∧
    trimWM wmE .unparsable = (localTrimWM wmE, true) ∧
    trimWM wmE .failed = (wmE, true) ∧
    trimWM wmE (.parsed wm0) = (wm0, true) := by
  have h1 : 8000 < estimateTokens (Json.stringify wm1) := by
    rw [wm1_size]
    norm_num
  have h2 : estimateTokens (Json.stringify (localTrimWM wm1)) ≤ 8000 := by
    rw [wm1_trimmed_size]
    norm_num
  have h3 : 8000 < estimateTokens (Json.stringify wmE) := by
    rw [wmE_size]
    norm_num
  have h4 : 8000 < estimateTokens (Json.stringify (localTrimWM wmE)) := by
    rw [localTrim_wmE, wmE_size]
    norm_num
  refine ⟨h1, h2, ?_, h3, h4, ?_, ?_, ?_⟩
  · exact (c7_wm_trim_two_stage u6 [] [] .failed h1).2.2.1 h2
  · exact ((c7_wm_trim_two_stage [] [] [Json.str (aStr 33000)] .failed h3).2.2.2 h4).1
  · exact ((c7_wm_trim_two_stage [] [] [Json.str (aStr 33000)] .failed h3).2.2.2 h4).2.1
  · exact ((c7_wm_trim_two_stage [] [] [Json.str (aStr 33000)] .failed h3).2.2.2 h4).2.2 wm0

end MemoryMgr
